import Mathlib

/-!
Verification of the point-snapping engine of mapbox-gl-draw-snap-mode
(src/src/utils/index.js).

Coordinates are pairs of real numbers (longitude, latitude).  The external
turf library functions that the engine calls (@turf/distance,
@turf/nearest-point-on-line, @turf/nearest-point, @turf/midpoint) are not part
of the repository; they are modelled as an abstract bundle of functions (the
structure `Turf`), and theorems that need facts about them (non-negativity of
distances, behaviour of nearest-point-on-line at a vertex) take those facts as
hypotheses.  A JavaScript exception thrown inside a call is modelled by
`Option`: a `none` result stands for a propagated exception.  JavaScript
truthiness of a possibly-undefined number (`undefined` and `0` are falsy) is
modelled explicitly, because the engine branches on it.
-/

noncomputable section

/-- A coordinate array [lng, lat]. -/
abbrev Coord : Type := ℝ × ℝ

/-- An object of shape { lng, lat }. -/
structure LngLat where
  lng : ℝ
  lat : ℝ

/-- The five GeoJSON geometry kinds the engine dispatches on
(layer.geometry.type). -/
inductive Geometry where
  | point (c : Coord)
  | multiPoint (cs : List Coord)
  | lineString (cs : List Coord)
  | multiLineString (css : List (List Coord))
  | polygon (rings : List (List Coord))
  | multiPolygon (polys : List (List (List Coord)))

/-- The result of @turf/nearest-point-on-line: the nearest coordinate, its
distance in kilometers (properties.dist), the index of the segment it lies on
(properties.index) and, for MultiLineString input, which member line it lies
on (properties.multiFeatureIndex). -/
structure TurfNearest where
  coord : Coord
  dist : ℝ
  index : ℕ
  multiFeatureIndex : ℕ

/-- The result of @turf/nearest-point: the nearest coordinate of the set and
its distance (properties.distanceToPoint). -/
structure TurfNearestPoint where
  coord : Coord
  distanceToPoint : ℝ

/-- The external turf library functions the engine calls.  They are inputs of
the embedding: every theorem quantifies over them, adding as hypotheses the
library facts it needs. -/
structure Turf where
  dist : Coord → Coord → ℝ
  nearestPointOnLine : Geometry → Coord → TurfNearest
  nearestPointInPointSet : Coord → List Coord → TurfNearestPoint
  midpoint : Coord → Coord → Coord

/-- The record built by calcLayerDistances and enriched by calcClosestLayer.
In the source the Point and MultiPoint branches return an object without the
segment and isMarker fields; reading an absent field gives undefined, which is
falsy, so absent segment is `none` and absent isMarker is `false`. -/
structure ClosestLayerResult where
  latlng : LngLat
  distance : ℝ
  segment : Option (List Coord) := none
  isMarker : Bool := false
  layer : Option Geometry := none

/-- The recognized fields of options.snapOptions.  A missing field reads as
undefined, hence `Option`. -/
structure SnapSubOptions where
  snapToMidPoints : Bool := false
  snapVertexPriorityDistance : Option ℝ := none
  snapPx : Option ℝ := none

/-- The recognized fields of state.options. -/
structure DrawOptions where
  snap : Bool := false
  guides : Bool := false
  snapOptions : Option SnapSubOptions := none

/-- The only thing the engine reads from state.map is map.getZoom(). -/
structure MapRef where
  zoom : ℝ

/-- A pointer event: e.lngLat and e.originalEvent.altKey. -/
structure Event where
  lngLat : LngLat
  altKey : Bool

/-- The session state the snap orchestrator reads and mutates. -/
structure SnapState where
  snapList : List Geometry
  vertices : List Coord
  options : DrawOptions
  map : MapRef
  verticalGuide : List Coord := []
  horizontalGuide : List Coord := []
  showVerticalSnapLine : Bool := false
  showHorizontalSnapLine : Bool := false

/-- JavaScript truthiness of a possibly-undefined number: undefined and 0 are
falsy (NaN is not modelled). -/
def jsTruthyR : Option ℝ → Bool
  | none => false
  | some v => decide (v ≠ 0)

/-- getNearbyvertices (lines 66-88): split the vertex set into longitude and
latitude arrays and take the first entry of each within 0.009 degrees of the
query coordinate. -/
def getNearbyvertices (vertices : List Coord) (coords : LngLat) :
    Option ℝ × Option ℝ :=
  let verticals := vertices.map (fun v => v.1)
  let horizontals := vertices.map (fun v => v.2)
  let nearbyVerticalGuide := verticals.find? (fun px => decide (|px - coords.lng| < 0.009))
  let nearbyHorizontalGuide := horizontals.find? (fun py => decide (|py - coords.lat| < 0.009))
  (nearbyVerticalGuide, nearbyHorizontalGuide)

/-- Lines 169-192 of calcLayerDistances: clamp the segment index when it
would run past the end of the winning line and assemble the result.  The JS
slice(segmentIndex, segmentIndex + 2) is drop-then-take; for coordinate lists
of length 0 or 1 the JS negative-index slice and the Nat-truncated
subtraction produce the same list. -/
def lineResult (np : TurfNearest) (coordinates : List Coord) : ClosestLayerResult :=
  let segmentIndex := if np.index + 1 ≥ coordinates.length
    then coordinates.length - 2 else np.index
  { latlng := ⟨np.coord.1, np.coord.2⟩,
    segment := some ((coordinates.drop segmentIndex).take 2),
    distance := np.dist,
    isMarker := false }

/-- Concatenation of a list of lists (the flatMap of the MultiPolygon branch,
lines 151-160). -/
def flattenLists {α : Type} : List (List α) → List α
  | [] => []
  | l :: ls => l ++ flattenLists ls

/-- The effect of @turf/polygon-to-line on one polygon, reduced to its
coordinate content: one ring becomes a LineString over that ring, several
rings become a MultiLineString over the rings, and no rings make the library
throw (it builds a line from an undefined coordinate array).  Combined with
the reconstruction in the isPolygon branch (lines 137-145), a non-empty ring
list is turned into exactly its list of rings, one candidate line per ring. -/
def polygonToLineRings (rings : List (List Coord)) : Option (List (List Coord)) :=
  match rings with
  | [] => none
  | rs => some rs

/-- getFeatureWithNearestPoint (lines 195-209): pair every candidate line
with its nearest point, sort ascending by distance and take the first entry.
Array.prototype.sort is stable, so the first entry after sorting is the first
line attaining the minimal distance; the fold below keeps the current entry
on ties, which selects exactly that line.  On an empty list the JS code reads
a field of undefined and throws. -/
def getFeatureWithNearestPoint (T : Turf) (lineStrings : List (List Coord))
    (P : Coord) : Option (List Coord × TurfNearest) :=
  let pairs := lineStrings.map (fun feat => (feat, T.nearestPointOnLine (.lineString feat) P))
  match pairs with
  | [] => none
  | first :: rest =>
      some (rest.foldl (fun best x => if x.2.dist < best.2.dist then x else best) first)

/-- calcLayerDistances (lines 90-193): the distance kernel for one candidate
geometry.  A `none` result models a thrown exception (reading a field of
undefined after an out-of-range index). -/
def calcLayerDistances (T : Turf) (lngLat : LngLat) (layer : Geometry) :
    Option ClosestLayerResult :=
  let P : Coord := (lngLat.lng, lngLat.lat)
  match layer with
  | .point c =>
      some { latlng := ⟨c.1, c.2⟩, distance := T.dist c P }
  | .multiPoint cs =>
      let np := T.nearestPointInPointSet P cs
      some { latlng := ⟨np.coord.1, np.coord.2⟩, distance := np.distanceToPoint }
  | .lineString cs =>
      let np := T.nearestPointOnLine (.lineString cs) P
      some (lineResult np cs)
  | .multiLineString css =>
      let np := T.nearestPointOnLine (.multiLineString css) P
      match css[np.multiFeatureIndex]? with
      | none => none
      | some cs => some (lineResult np cs)
  | .polygon rings =>
      match polygonToLineRings rings with
      | none => none
      | some lineStrings =>
        match getFeatureWithNearestPoint T lineStrings P with
        | none => none
        | some (winner, np) => some (lineResult np winner)
  | .multiPolygon polys =>
      match polys.mapM polygonToLineRings with
      | none => none
      | some ringLists =>
        match getFeatureWithNearestPoint T (flattenLists ringLists) P with
        | none => none
        | some (winner, np) => some (lineResult np winner)

/-- The loop body of calcClosestLayer (lines 215-227): keep the result of a candidate
when no result has been saved yet (the initial empty object, whose
distance field is undefined) or when its distance is strictly smaller than
the saved one, attaching the source layer. -/
def closestLayerStep (T : Turf) (lngLat : LngLat)
    (closestLayer : Option ClosestLayerResult) (layer : Geometry) :
    Option (Option ClosestLayerResult) :=
  (calcLayerDistances T lngLat layer).map (fun results =>
    match closestLayer with
    | none => some { results with layer := some layer }
    | some best =>
      if results.distance < best.distance
      then some { results with layer := some layer }
      else some best)

/-- calcClosestLayer (lines 211-232): fold over the candidate list.  The
outer `Option` propagates a kernel exception; the inner `Option` is the
possibly still-empty accumulator. -/
def calcClosestLayer (T : Turf) (lngLat : LngLat) (layers : List Geometry) :
    Option (Option ClosestLayerResult) :=
  layers.foldlM (closestLayerStep T lngLat) none

/-- metersPerPixel (lines 235-242). -/
def metersPerPixel (latitude zoomLevel : ℝ) : ℝ :=
  let earthCircumference : ℝ := 40075017
  let latitudeRadians := latitude * (Real.pi / 180)
  earthCircumference * Real.cos latitudeRadians / (2 : ℝ) ^ (zoomLevel + 8)

/-- snapToLineOrPolygon (lines 245-297).  Reading segment[0] or segment[1]
of a segment with fewer than two entries gives undefined and the subsequent
turf distance call throws, hence `none`. -/
def snapToLineOrPolygon (T : Turf) (closestLayer : ClosestLayerResult)
    (snapOptions : Option SnapSubOptions) (snapVertexPriorityDistance : ℝ) :
    Option LngLat :=
  match closestLayer.segment with
  | some (A :: B :: _) =>
    let C : Coord := (closestLayer.latlng.lng, closestLayer.latlng.lat)
    let distanceAC := T.dist A C
    let distanceBC := T.dist B C
    let closestVertexLatLng := if distanceAC < distanceBC then A else B
    let shortestDistance := if distanceAC < distanceBC then distanceAC else distanceBC
    let vertexAndDistance :=
      match snapOptions with
      | some so =>
        if so.snapToMidPoints then
          let M := T.midpoint A B
          let distanceMC := T.dist M C
          if distanceMC < distanceAC ∧ distanceMC < distanceBC
          then (M, distanceMC)
          else (closestVertexLatLng, shortestDistance)
        else (closestVertexLatLng, shortestDistance)
      | none => (closestVertexLatLng, shortestDistance)
    let priorityDistance := snapVertexPriorityDistance
    let snapLatlng :=
      if vertexAndDistance.2 < priorityDistance then vertexAndDistance.1 else C
    some ⟨snapLatlng.1, snapLatlng.2⟩
  | _ => none

/-- snapToPoint (lines 299-301). -/
def snapToPoint (closestLayer : ClosestLayerResult) : LngLat :=
  closestLayer.latlng

/-- checkPrioritiySnapping (lines 303-318).  The third JS parameter defaults
to 1.25 when the caller passes undefined. -/
def checkPrioritiySnapping (T : Turf) (closestLayer : ClosestLayerResult)
    (snapOptions : Option SnapSubOptions)
    (snapVertexPriorityDistance : Option ℝ) : Option LngLat :=
  let pd := snapVertexPriorityDistance.getD (1.25 : ℝ)
  let snappingToPoint := closestLayer.segment.isNone
  if snappingToPoint then some (snapToPoint closestLayer)
  else snapToLineOrPolygon T closestLayer snapOptions pd

/-- updateCoordinate(i, lng, lat) on a draw feature: assign index i of the
coordinate array, growing the array when the index is past the end. -/
def updateCoordinate (coords : List Coord) (i : ℕ) (lng lat : ℝ) : List Coord :=
  if i < coords.length then coords.set i (lng, lat)
  else coords ++ List.replicate (i - coords.length) ((0 : ℝ), (0 : ℝ)) ++ [(lng, lat)]

/-- state.options.snapOptions ? state.options.snapOptions.snapVertexPriorityDistance : undefined
(lines 360-362). -/
def configuredPriorityDistance (o : DrawOptions) : Option ℝ :=
  match o.snapOptions with
  | some so => so.snapVertexPriorityDistance
  | none => none

/-- (state.options.snapOptions && state.options.snapOptions.snapPx) || 50
(line 377): a missing snapOptions object, a missing snapPx field and a falsy
snapPx value of 0 all yield the default 50. -/
def snapPxConfigured (o : DrawOptions) : ℝ :=
  match o.snapOptions with
  | some so =>
    match so.snapPx with
    | some px => if px = 0 then 50 else px
    | none => 50
  | none => 50

/-- The outcome of the feature-snapping block of snap (lines 348-379). -/
inductive FeatureStage where
  | thrown
  | earlyReturn
  | disabled
  | ready (closestLayer : ClosestLayerResult) (snapLatLng : LngLat) (minDistance : ℝ)

/-- The feature-snapping block of snap (lines 348-379): when snapping is
enabled, select the closest layer, return the raw coordinate early when the
selection is the empty object, resolve the snap coordinate (the isMarker
field of a saved result is never true, since the Point branch of the kernel
returns an object without that field, but the branch is kept as written) and
convert the pixel tolerance into meters at the query latitude. -/
def snapFeatureStage (T : Turf) (s : SnapState) (lng lat : ℝ) : FeatureStage :=
  if s.options.snap then
    match calcClosestLayer T ⟨lng, lat⟩ s.snapList with
    | none => .thrown
    | some none => .earlyReturn
    | some (some closestLayer) =>
      let isMarker := closestLayer.isMarker
      let snapLatLng? :=
        if isMarker then some closestLayer.latlng
        else checkPrioritiySnapping T closestLayer s.options.snapOptions
          (configuredPriorityDistance s.options)
      match snapLatLng? with
      | none => .thrown
      | some snapLatLng =>
        .ready closestLayer snapLatLng
          (snapPxConfigured s.options * metersPerPixel lat s.map.zoom)
  else .disabled

/-- The guide block of snap (lines 381-418): when guides are enabled, run the
guide resolver, move the guide feature endpoints for each truthy match and
recompute both visibility flags; the second and third components are the
verticalPx and horizontalPx locals (undefined when guides are disabled). -/
def snapGuideStage (s : SnapState) (e : Event) : SnapState × Option ℝ × Option ℝ :=
  if s.options.guides then
    let ng := getNearbyvertices s.vertices e.lngLat
    let verticalPx := ng.1
    let horizontalPx := ng.2
    let s₁ :=
      match verticalPx with
      | some v =>
        if v = 0 then s
        else { s with verticalGuide :=
          (updateCoordinate (updateCoordinate s.verticalGuide 0 v (e.lngLat.lat + 10))
            1 v (e.lngLat.lat - 10)) }
      | none => s
    let s₂ :=
      match horizontalPx with
      | some h =>
        if h = 0 then s₁
        else { s₁ with horizontalGuide :=
          (updateCoordinate (updateCoordinate s₁.horizontalGuide 0 (e.lngLat.lng + 10) h)
            1 (e.lngLat.lng - 10) h) }
      | none => s₁
    let s₃ := { s₂ with
      showVerticalSnapLine := jsTruthyR verticalPx,
      showHorizontalSnapLine := jsTruthyR horizontalPx }
    (s₃, verticalPx, horizontalPx)
  else (s, none, none)

/-- Lines 422-431: the guide fallback of the final decision.  The branch is
taken when verticalPx or horizontalPx is truthy, and each truthy value
replaces its axis component of the raw coordinate. -/
def snapGuideFallback (lng lat : ℝ) (verticalPx horizontalPx : Option ℝ) : LngLat :=
  if jsTruthyR verticalPx || jsTruthyR horizontalPx then
    let lng' := match verticalPx with
      | some v => if v = 0 then lng else v
      | none => lng
    let lat' := match horizontalPx with
      | some h => if h = 0 then lat else h
      | none => lat
    ⟨lng', lat'⟩
  else ⟨lng, lat⟩

/-- Lines 420-432: the final decision.  closestLayer is undefined (falsy)
when feature snapping is disabled, so the feature branch is guarded by the
presence of feature-stage data. -/
def snapFinal (featureData : Option (ClosestLayerResult × LngLat × ℝ))
    (lng lat : ℝ) (verticalPx horizontalPx : Option ℝ) : LngLat :=
  match featureData with
  | some (closestLayer, snapLatLng, minDistance) =>
      if closestLayer.distance * 1000 < minDistance then snapLatLng
      else snapGuideFallback lng lat verticalPx horizontalPx
  | none => snapGuideFallback lng lat verticalPx horizontalPx

/-- snap (lines 330-433): the orchestrator.  The returned pair is the state
after the mutations of the call together with the returned coordinate; a `none`
coordinate models a propagated exception, which aborts the call before any
later mutation. -/
def snap (T : Turf) (s : SnapState) (e : Event) : SnapState × Option LngLat :=
  let lng := e.lngLat.lng
  let lat := e.lngLat.lat
  if e.altKey then
    ({ s with showVerticalSnapLine := false, showHorizontalSnapLine := false },
     some ⟨lng, lat⟩)
  else if s.snapList.length ≤ 0 then (s, some ⟨lng, lat⟩)
  else
    match snapFeatureStage T s lng lat with
    | .thrown => (s, none)
    | .earlyReturn => (s, some ⟨lng, lat⟩)
    | .disabled =>
        let g := snapGuideStage s e
        (g.1, some (snapFinal none lng lat g.2.1 g.2.2))
    | .ready closestLayer snapLatLng minDistance =>
        let g := snapGuideStage s e
        (g.1, some (snapFinal (some (closestLayer, snapLatLng, minDistance))
          lng lat g.2.1 g.2.2))

/-- The coordinate sequences of a geometry from which a segment may be
drawn: the single sequence of a line, the member lines of a MultiLineString,
the rings of a polygon, the rings of every member polygon of a MultiPolygon. -/
def Geometry.coordSeqs : Geometry → List (List Coord)
  | .point c => [[c]]
  | .multiPoint cs => [cs]
  | .lineString cs => [cs]
  | .multiLineString css => css
  | .polygon rings => rings
  | .multiPolygon polys => flattenLists polys

/-- The line-like geometry kinds: every kind except Point and MultiPoint. -/
def Geometry.isLineLike : Geometry → Bool
  | .point _ => false
  | .multiPoint _ => false
  | _ => true

/-- The resolution policy as the specification words it (section 4.3): V is
the nearer of the segment endpoints A and B to the nearest point C, with
vDist its distance; when snapToMidPoints is enabled and the midpoint of A-B
is strictly nearer to C than both endpoints, V becomes that midpoint and
vDist that distance; the result is V exactly when vDist is below the
priority distance, and C otherwise.  Written from the spec, to be compared
with checkPrioritiySnapping. -/
def resolveSpec (T : Turf) (snapOptions : Option SnapSubOptions)
    (priorityDistanceKm : ℝ) (A B : Coord) (latlng : LngLat) : LngLat :=
  let C : Coord := (latlng.lng, latlng.lat)
  let vertex := if T.dist A C < T.dist B C then A else B
  let vertexDist := min (T.dist A C) (T.dist B C)
  let midOn := match snapOptions with
    | some so => so.snapToMidPoints
    | none => false
  let M := T.midpoint A B
  let midWins := midOn = true ∧ T.dist M C < T.dist A C ∧ T.dist M C < T.dist B C
  let V := if midWins then M else vertex
  let vDist := if midWins then T.dist M C else vertexDist
  let chosen := if vDist < priorityDistanceKm then V else C
  ⟨chosen.1, chosen.2⟩

/-- Library fact of @turf/distance: a great-circle distance is nonnegative. -/
def TurfDistNonneg (T : Turf) : Prop := ∀ a b, 0 ≤ T.dist a b

/-- Library fact of @turf/distance: the distance of a point to itself is 0. -/
def TurfDistRefl (T : Turf) : Prop := ∀ a, T.dist a a = 0

/-- Library fact of @turf/distance: only a point has distance 0 to itself. -/
def TurfDistDefinite (T : Turf) : Prop := ∀ a b, T.dist a b = 0 → a = b

/-- Library fact of @turf/nearest-point-on-line: the reported distance is
nonnegative. -/
def TurfNearestNonneg (T : Turf) : Prop :=
  ∀ g p, 0 ≤ (T.nearestPointOnLine g p).dist

/-- Every coordinate sequence of the geometry has at least two entries. -/
def AllSeqsLong (g : Geometry) : Prop := ∀ cs ∈ g.coordSeqs, 2 ≤ cs.length

/-- A concrete turf bundle used to instantiate the theorems: taxicab distance
and a nearest-point function that reports the query point itself at distance
0 on segment 0. -/
def T0 : Turf where
  dist := fun a b => |a.1 - b.1| + |a.2 - b.2|
  nearestPointOnLine := fun _ p => ⟨p, 0, 0, 0⟩
  nearestPointInPointSet := fun p _ => ⟨p, 0⟩
  midpoint := fun a _ => a

/-- A concrete pointer event with the bypass modifier held. -/
def e3 : Event := ⟨⟨1, 2⟩, true⟩

/-- A concrete session state with both guide flags raised, to observe the
bypass branch clearing them. -/
def s3 : SnapState :=
  { snapList := [Geometry.point ((3:ℝ), (4:ℝ))],
    vertices := [((3:ℝ), (4:ℝ))],
    options := { snap := true, guides := true, snapOptions := none },
    map := ⟨0⟩,
    showVerticalSnapLine := true, showHorizontalSnapLine := true }

/-- A concrete session state for the feature-snapping stage: one Point
candidate at the origin, snapping enabled, guides disabled. -/
def s1 : SnapState :=
  { snapList := [Geometry.point ((0:ℝ), (0:ℝ))],
    vertices := [],
    options := { snap := true, guides := false, snapOptions := none },
    map := ⟨0⟩ }

/-- A concrete pointer event at the origin with no modifier. -/
def e1 : Event := ⟨⟨0, 0⟩, false⟩

/-- The closest-layer record that the selector computes for s1 and e1. -/
def cl1 : ClosestLayerResult :=
  { latlng := ⟨0, 0⟩,
    distance := T0.dist ((0:ℝ), (0:ℝ)) ((0:ℝ), (0:ℝ)),
    layer := some (Geometry.point ((0:ℝ), (0:ℝ))) }

/-- A concrete segment-type closest-layer record: segment from (0,0) to
(0,1), nearest point at the origin. -/
def r2 : ClosestLayerResult :=
  { latlng := ⟨0, 0⟩, distance := 0,
    segment := some [((0:ℝ), (0:ℝ)), ((0:ℝ), (1:ℝ))] }

/-- The closest-layer record the kernel computes for the line [A,B,C] of c8
queried exactly at its interior vertex B = (1,0). -/
def r8 : ClosestLayerResult :=
  { latlng := ⟨1, 0⟩, distance := 0,
    segment := some [((0:ℝ), (0:ℝ)), ((1:ℝ), (0:ℝ))], isMarker := false }

/-- A concrete session state whose single recorded vertex lies exactly on
the prime meridian, with feature snapping disabled and guides enabled. -/
def s4 : SnapState :=
  { snapList := [Geometry.point ((100:ℝ), (100:ℝ))],
    vertices := [((0:ℝ), (50:ℝ))],
    options := { snap := false, guides := true, snapOptions := none },
    map := ⟨0⟩ }

/-- A concrete pointer event within guide tolerance of longitude 0 and away
from latitude 50. -/
def e4 : Event := ⟨⟨0.001, 20⟩, false⟩

/-- A concrete session state with one recorded vertex at a nonzero longitude
and latitude, within guide tolerance of the query e4b. -/
def s4b : SnapState :=
  { snapList := [Geometry.point ((100:ℝ), (100:ℝ))],
    vertices := [((7:ℝ), (20:ℝ))],
    options := { snap := false, guides := true, snapOptions := none },
    map := ⟨0⟩ }

/-- A concrete pointer event within guide tolerance of longitude 7 and
latitude 20. -/
def e4b : Event := ⟨⟨7.001, 20.002⟩, false⟩

/-- A concrete two-vertex line for the segment invariant. -/
def g6 : Geometry := Geometry.lineString [((0:ℝ), (0:ℝ)), ((1:ℝ), (0:ℝ))]

/-- The result the kernel computes for g6 queried at the origin with T0. -/
def r6 : ClosestLayerResult :=
  { latlng := ⟨0, 0⟩, distance := 0,
    segment := some [((0:ℝ), (0:ℝ)), ((1:ℝ), (0:ℝ))], isMarker := false }

end

noncomputable section

/-- The value of a JS conditional picking the smaller of two distances is the
minimum of the two. -/
theorem ite_lt_eq_min (a b : ℝ) : (if a < b then a else b) = min a b := by
  rcases lt_or_ge a b with h | h
  · simp [h, min_eq_left h.le]
  · simp [not_lt.mpr h, min_eq_right h]

/-- Writing indices 0 and 1 of a coordinate array leaves those entries at the
written values, whatever the array held before. -/
theorem updateCoordinate_pair (l : List Coord) (a b c d : ℝ) :
    (updateCoordinate (updateCoordinate l 0 a b) 1 c d)[0]? = some (a, b) ∧
    (updateCoordinate (updateCoordinate l 0 a b) 1 c d)[1]? = some (c, d) := by
  cases l with
  | nil => simp [updateCoordinate]
  | cons x t =>
    cases t with
    | nil => simp [updateCoordinate]
    | cons y t' =>
      simp [updateCoordinate, List.set_cons_succ, List.set_cons_zero]

/-- A successful find? returns the first element satisfying the predicate. -/
theorem find?_first {α : Type} {p : α → Bool} :
    ∀ {l : List α} {x : α}, l.find? p = some x →
      ∃ i : ℕ, l[i]? = some x ∧ p x = true ∧
        ∀ j, j < i → ∀ y, l[j]? = some y → p y = false := by
  intro l
  induction l with
  | nil => intro x h; simp at h
  | cons a t ih =>
    intro x h
    by_cases hpa : p a = true
    · rw [List.find?_cons_of_pos _ hpa] at h
      obtain rfl : a = x := by simpa using h
      exact ⟨0, by simp, hpa, fun j hj => absurd hj (Nat.not_lt_zero j)⟩
    · rw [List.find?_cons_of_neg _ hpa] at h
      obtain ⟨i, hget, hpx, hprev⟩ := ih h
      refine ⟨i + 1, by simpa using hget, hpx, ?_⟩
      intro j hj y hy
      cases j with
      | zero =>
        obtain rfl : a = y := by simpa using hy
        exact eq_false_of_ne_true hpa
      | succ k =>
        exact hprev k (Nat.lt_of_succ_lt_succ hj) y (by simpa using hy)

/-- The first axis match of the guide resolver, expressed over the vertex
list: the matched value is a coordinate of the first vertex within tolerance
on that axis, and no earlier vertex is within tolerance. -/
theorem nearbyAxis_first (f : Coord → ℝ) (t : ℝ) (vs : List Coord) (x : ℝ)
    (hx : (vs.map f).find? (fun px => decide (|px - t| < 0.009)) = some x) :
    ∃ i : ℕ, ∃ c, vs[i]? = some c ∧ f c = x ∧ |x - t| < 0.009 ∧
      ∀ j, j < i → ∀ c', vs[j]? = some c' → ¬ |f c' - t| < 0.009 := by
  obtain ⟨i, hget, hpx, hprev⟩ := find?_first hx
  rw [List.getElem?_map] at hget
  rcases hvi : vs[i]? with _ | c
  · rw [hvi] at hget; simp at hget
  · rw [hvi] at hget
    simp only [Option.map_some'] at hget
    obtain rfl : f c = x := by simpa using hget
    refine ⟨i, c, hvi, rfl, by simpa using hpx, ?_⟩
    intro j hj c' hc'
    have hf := hprev j hj (f c') (by rw [List.getElem?_map, hc']; rfl)
    simpa using hf

/-- Membership in a concatenation of lists. -/
theorem flattenLists_mem {α : Type} (a : α) :
    ∀ ls : List (List α), a ∈ flattenLists ls ↔ ∃ l ∈ ls, a ∈ l := by
  intro ls
  induction ls with
  | nil => simp [flattenLists]
  | cons l ls ih => simp [flattenLists, ih, List.mem_append]

/-- A fold with a body that always keeps either the accumulator or the new
element returns the initial value or a member of the list. -/
theorem foldl_choice_mem {α : Type} (f : α → α → α)
    (hf : ∀ b x, f b x = b ∨ f b x = x) (a : α) :
    ∀ l : List α, l.foldl f a = a ∨ l.foldl f a ∈ l := by
  intro l
  induction l generalizing a with
  | nil => exact Or.inl rfl
  | cons x t ih =>
    rcases ih (f a x) with h | h
    · rcases hf a x with hx | hx
      · exact Or.inl (by rw [List.foldl_cons, h, hx])
      · exact Or.inr (by rw [List.foldl_cons, h, hx]; exact List.mem_cons_self x t)
    · exact Or.inr (by rw [List.foldl_cons]; exact List.mem_cons_of_mem x h)

/-- polygonToLineRings succeeds exactly on a non-empty ring list and then
returns the rings unchanged. -/
theorem polygonToLineRings_eq {rings L : List (List Coord)}
    (h : polygonToLineRings rings = some L) : L = rings := by
  cases rings with
  | nil => simp [polygonToLineRings] at h
  | cons r rs => simpa [polygonToLineRings] using h.symm

/-- Mapping polygonToLineRings over a MultiPolygon either fails or returns
the member ring lists unchanged. -/
theorem mapM_polygonToLineRings_eq :
    ∀ {polys L : List (List (List Coord))},
      polys.mapM polygonToLineRings = some L → L = polys := by
  intro polys
  induction polys with
  | nil =>
    intro L h
    rw [List.mapM_nil] at h
    exact (Option.some.inj h).symm
  | cons p ps ih =>
    intro L h
    rw [List.mapM_cons] at h
    rcases hp : polygonToLineRings p with _ | rs
    · rw [hp] at h; simp at h
    · rw [hp] at h
      rcases hps : ps.mapM polygonToLineRings with _ | Ls
      · rw [hps] at h; simp at h
      · rw [hps] at h
        simp at h
        rw [← h, polygonToLineRings_eq hp, ih hps]

/-- A slice of two entries starting strictly inside a list is the pair of
consecutive entries there. -/
theorem drop_take_pair {α : Type} :
    ∀ (l : List α) (i : ℕ), i + 1 < l.length →
      ∃ a b, l[i]? = some a ∧ l[i+1]? = some b ∧ (l.drop i).take 2 = [a, b] := by
  intro l
  induction l with
  | nil => intro i h; simp at h
  | cons x t ih =>
    intro i h
    cases i with
    | zero =>
      cases t with
      | nil => simp at h
      | cons y t' => exact ⟨x, y, by simp, by simp, rfl⟩
    | succ j =>
      have h' : j + 1 < t.length := by simpa using h
      obtain ⟨a, b, ha, hb, hdt⟩ := ih j h'
      exact ⟨a, b, by simpa using ha, by simpa using hb, by simpa using hdt⟩

/-- The winner of getFeatureWithNearestPoint is one of the candidate lines,
paired with its own nearest point. -/
theorem getFeatureWithNearestPoint_mem (T : Turf) (lineStrings : List (List Coord))
    (P : Coord) (w : List Coord) (np : TurfNearest)
    (h : getFeatureWithNearestPoint T lineStrings P = some (w, np)) :
    w ∈ lineStrings ∧ np = T.nearestPointOnLine (.lineString w) P := by
  cases lineStrings with
  | nil => simp [getFeatureWithNearestPoint] at h
  | cons c cs =>
    simp only [getFeatureWithNearestPoint, List.map_cons] at h
    set f : (List Coord × TurfNearest) → (List Coord × TurfNearest) → (List Coord × TurfNearest) :=
      fun best x => if x.2.dist < best.2.dist then x else best with hfdef
    have hf : ∀ b x, f b x = b ∨ f b x = x := by
      intro b x
      by_cases hc : x.2.dist < b.2.dist
      · exact Or.inr (by simp [hfdef, hc])
      · exact Or.inl (by simp [hfdef, hc])
    have hmem := foldl_choice_mem f hf
      (c, T.nearestPointOnLine (.lineString c) P)
      (cs.map (fun feat => (feat, T.nearestPointOnLine (.lineString feat) P)))
    have heq : (cs.map (fun feat => (feat, T.nearestPointOnLine (.lineString feat) P))).foldl f
        (c, T.nearestPointOnLine (.lineString c) P) = (w, np) := by
      simpa [hfdef] using h
    rw [heq] at hmem
    rcases hmem with h1 | h1
    · obtain ⟨rfl, rfl⟩ : c = w ∧ T.nearestPointOnLine (.lineString c) P = np := by
        constructor
        · exact congrArg Prod.fst h1.symm
        · exact congrArg Prod.snd h1.symm
      exact ⟨List.mem_cons_self _ _, rfl⟩
    · obtain ⟨feat, hfeat, hfw⟩ := List.mem_map.mp h1
      obtain ⟨rfl, rfl⟩ : feat = w ∧ T.nearestPointOnLine (.lineString feat) P = np := by
        constructor
        · exact congrArg Prod.fst hfw
        · exact congrArg Prod.snd hfw
      exact ⟨List.mem_cons_of_mem _ hfeat, rfl⟩


/-- A successful selector step always has a saved result afterwards. -/
theorem closestLayerStep_some (T : Turf) (p : LngLat)
    (acc : Option ClosestLayerResult) (g : Geometry)
    (acc' : Option ClosestLayerResult)
    (h : closestLayerStep T p acc g = some acc') : ∃ b, acc' = some b := by
  unfold closestLayerStep at h
  rcases hk : calcLayerDistances T p g with _ | res
  · rw [hk] at h; simp at h
  · rw [hk] at h
    simp only [Option.map_some'] at h
    rcases acc with _ | best
    · exact ⟨_, (Option.some.inj h).symm⟩
    · by_cases hc : res.distance < best.distance
      · simp only [hc, if_true] at h
        exact ⟨_, (Option.some.inj h).symm⟩
      · simp only [hc, if_false] at h
        exact ⟨best, (Option.some.inj h).symm⟩

/-- Once a result is saved, the selector fold can no longer end with the
empty accumulator. -/
theorem foldlM_step_some (T : Turf) (p : LngLat) :
    ∀ (layers : List Geometry) (acc : ClosestLayerResult),
      List.foldlM (closestLayerStep T p) (some acc) layers ≠ some none := by
  intro layers
  induction layers with
  | nil => intro acc h; simp [List.foldlM_nil] at h
  | cons g gs ih =>
    intro acc h
    rw [List.foldlM_cons] at h
    rcases hstep : closestLayerStep T p (some acc) g with _ | acc'
    · rw [hstep] at h; simp at h
    · rw [hstep] at h
      obtain ⟨b, rfl⟩ := closestLayerStep_some T p (some acc) g acc' hstep
      exact ih b h

/-- With a non-empty candidate list, calcClosestLayer never returns the
still-empty accumulator. -/
theorem calcClosestLayer_ne_some_none (T : Turf) (p : LngLat)
    (layers : List Geometry) (h : layers ≠ []) :
    calcClosestLayer T p layers ≠ some none := by
  cases layers with
  | nil => exact absurd rfl h
  | cons g gs =>
    intro hcontra
    unfold calcClosestLayer at hcontra
    rw [List.foldlM_cons] at hcontra
    rcases hstep : closestLayerStep T p none g with _ | acc'
    · rw [hstep] at hcontra; simp at hcontra
    · rw [hstep] at hcontra
      obtain ⟨b, rfl⟩ := closestLayerStep_some T p none g acc' hstep
      exact foldlM_step_some T p gs b hcontra

/-- With a non-empty candidate list the feature stage never takes the
empty-selection early return. -/
theorem snapFeatureStage_ne_earlyReturn (T : Turf) (s : SnapState) (lng lat : ℝ)
    (h : s.snapList ≠ []) :
    snapFeatureStage T s lng lat ≠ FeatureStage.earlyReturn := by
  unfold snapFeatureStage
  by_cases hs : s.options.snap = true
  · simp only [hs, if_true]
    rcases hc : calcClosestLayer T ⟨lng, lat⟩ s.snapList with _ | (_ | cl)
    · simp
    · exact absurd hc (calcClosestLayer_ne_some_none T ⟨lng, lat⟩ s.snapList h)
    · dsimp only
      split <;> simp
  · simp only [Bool.not_eq_true] at hs
    simp [hs]

/-- The guide stage changes no field the rest of the engine reads. -/
theorem snapGuideStage_core (s : SnapState) (e : Event) :
    (snapGuideStage s e).1.snapList = s.snapList ∧
    (snapGuideStage s e).1.vertices = s.vertices ∧
    (snapGuideStage s e).1.options = s.options ∧
    (snapGuideStage s e).1.map = s.map := by
  unfold snapGuideStage
  by_cases hg : s.options.guides = true
  · simp only [hg, if_true]
    rcases (getNearbyvertices s.vertices e.lngLat).1 with _ | v <;>
      rcases (getNearbyvertices s.vertices e.lngLat).2 with _ | h <;>
        dsimp only <;> (try split_ifs) <;> simp
  · simp only [Bool.not_eq_true] at hg
    simp [hg]

/-- The branch of snap taken with no bypass modifier and a non-empty
candidate list, written out by feature-stage outcome. -/
theorem snap_eq_branch (T : Turf) (s : SnapState) (e : Event)
    (halt : e.altKey = false) (hlen : ¬ s.snapList.length ≤ 0) :
    snap T s e =
      match snapFeatureStage T s e.lngLat.lng e.lngLat.lat with
      | .thrown => (s, none)
      | .earlyReturn => (s, some ⟨e.lngLat.lng, e.lngLat.lat⟩)
      | .disabled =>
          ((snapGuideStage s e).1,
            some (snapFinal none e.lngLat.lng e.lngLat.lat
              (snapGuideStage s e).2.1 (snapGuideStage s e).2.2))
      | .ready cl sl md =>
          ((snapGuideStage s e).1,
            some (snapFinal (some (cl, sl, md)) e.lngLat.lng e.lngLat.lat
              (snapGuideStage s e).2.1 (snapGuideStage s e).2.2)) := by
  unfold snap
  rw [halt]
  simp only [Bool.false_eq_true, if_false, if_neg hlen]

/-- A snap call changes no field the engine reads on a repeated call. -/
theorem snap_core (T : Turf) (s : SnapState) (e : Event) :
    (snap T s e).1.snapList = s.snapList ∧
    (snap T s e).1.vertices = s.vertices ∧
    (snap T s e).1.options = s.options ∧
    (snap T s e).1.map = s.map := by
  by_cases halt : e.altKey = true
  · unfold snap; simp [halt]
  · simp only [Bool.not_eq_true] at halt
    by_cases hlen : s.snapList.length ≤ 0
    · unfold snap; simp [halt, hlen]
    · rw [snap_eq_branch T s e halt hlen]
      cases snapFeatureStage T s e.lngLat.lng e.lngLat.lat with
      | thrown => simp
      | earlyReturn => simp
      | disabled => simpa using snapGuideStage_core s e
      | ready cl sl md => simpa using snapGuideStage_core s e

/-- The returned coordinate of snap depends only on the candidate list, the
vertex set, the options, the map and the event. -/
theorem snap_snd_congr (T : Turf) (s₁ s₂ : SnapState) (e : Event)
    (h₁ : s₁.snapList = s₂.snapList) (h₂ : s₁.vertices = s₂.vertices)
    (h₃ : s₁.options = s₂.options) (h₄ : s₁.map = s₂.map) :
    (snap T s₁ e).2 = (snap T s₂ e).2 := by
  obtain ⟨L₁, V₁, O₁, M₁, vg₁, hg₁, a₁, b₁⟩ := s₁
  obtain ⟨L₂, V₂, O₂, M₂, vg₂, hg₂, a₂, b₂⟩ := s₂
  simp only at h₁ h₂ h₃ h₄
  subst h₁ h₂ h₃ h₄
  have hstage : snapFeatureStage T ⟨L₁, V₁, O₁, M₁, vg₁, hg₁, a₁, b₁⟩ e.lngLat.lng e.lngLat.lat
      = snapFeatureStage T ⟨L₁, V₁, O₁, M₁, vg₂, hg₂, a₂, b₂⟩ e.lngLat.lng e.lngLat.lat := rfl
  have hguide : (snapGuideStage ⟨L₁, V₁, O₁, M₁, vg₁, hg₁, a₁, b₁⟩ e).2
      = (snapGuideStage ⟨L₁, V₁, O₁, M₁, vg₂, hg₂, a₂, b₂⟩ e).2 := by
    unfold snapGuideStage
    cases hO : O₁.guides <;> simp [hO]
  have hg1 : (snapGuideStage ⟨L₁, V₁, O₁, M₁, vg₁, hg₁, a₁, b₁⟩ e).2.1
      = (snapGuideStage ⟨L₁, V₁, O₁, M₁, vg₂, hg₂, a₂, b₂⟩ e).2.1 := by rw [hguide]
  have hg2 : (snapGuideStage ⟨L₁, V₁, O₁, M₁, vg₁, hg₁, a₁, b₁⟩ e).2.2
      = (snapGuideStage ⟨L₁, V₁, O₁, M₁, vg₂, hg₂, a₂, b₂⟩ e).2.2 := by rw [hguide]
  by_cases halt : e.altKey = true
  · unfold snap; simp [halt]
  · simp only [Bool.not_eq_true] at halt
    by_cases hlen : L₁.length ≤ 0
    · unfold snap; simp [halt, hlen]
    · rw [snap_eq_branch T _ e halt hlen, snap_eq_branch T _ e halt hlen, hstage]
      cases snapFeatureStage T ⟨L₁, V₁, O₁, M₁, vg₂, hg₂, a₂, b₂⟩ e.lngLat.lng e.lngLat.lat with
      | thrown => rfl
      | earlyReturn => rfl
      | disabled => simp [hg1, hg2]
      | ready cl sl md => simp [hg1, hg2]

/-- The concrete taxicab distance is nonnegative. -/
theorem T0_dist_nonneg : TurfDistNonneg T0 := by
  intro a b
  have h1 : (0:ℝ) ≤ |a.1 - b.1| := abs_nonneg _
  have h2 : (0:ℝ) ≤ |a.2 - b.2| := abs_nonneg _
  simpa [T0] using add_nonneg h1 h2

/-- The concrete taxicab distance of a point to itself is 0. -/
theorem T0_dist_refl : TurfDistRefl T0 := by
  intro a; simp [T0]

/-- The concrete taxicab distance separates points. -/
theorem T0_dist_definite : TurfDistDefinite T0 := by
  intro a b h
  simp only [T0] at h
  have hx : |a.1 - b.1| = 0 := by
    linarith [abs_nonneg (a.1 - b.1), abs_nonneg (a.2 - b.2)]
  have hy : |a.2 - b.2| = 0 := by
    linarith [abs_nonneg (a.1 - b.1), abs_nonneg (a.2 - b.2)]
  have hx' : a.1 = b.1 := by have := abs_eq_zero.mp hx; linarith
  have hy' : a.2 = b.2 := by have := abs_eq_zero.mp hy; linarith
  exact Prod.ext hx' hy'

/-- The concrete nearest-point function reports distance 0 everywhere. -/
theorem T0_nearest_nonneg : TurfNearestNonneg T0 := by
  intro g p; simp [T0]


/-- C3: for every pointer event with the bypass (alt) modifier held,
regardless of candidate list, vertex set and option configuration, snap sets
both guide-visibility flags to false and returns the raw event coordinate
unchanged. -/
theorem c3_bypass_returns_raw (T : Turf) (s : SnapState) (e : Event)
    (h : e.altKey = true) :
    (snap T s e).1.showVerticalSnapLine = false ∧
    (snap T s e).1.showHorizontalSnapLine = false ∧
    (snap T s e).2 = some ⟨e.lngLat.lng, e.lngLat.lat⟩ := by
  unfold snap
  simp [h]

/-- Witness for c3_bypass_returns_raw at the concrete state s3 and event e3. -/
theorem c3_bypass_returns_raw_witness :
    e3.altKey = true ∧
    ((snap T0 s3 e3).1.showVerticalSnapLine = false ∧
     (snap T0 s3 e3).1.showHorizontalSnapLine = false ∧
     (snap T0 s3 e3).2 = some ⟨e3.lngLat.lng, e3.lngLat.lat⟩) :=
  ⟨rfl, c3_bypass_returns_raw T0 s3 e3 rfl⟩

/-- C7: metersPerPixel latitude zoom equals
40075017 * cos(latitude in radians) / 2 ^ (zoom + 8); at latitude 0 and
zoom 0 it is 40075017 / 256, and for a fixed zoom it strictly decreases as
the absolute latitude grows toward 90 degrees. -/
theorem c7_metersPerPixel :
    (∀ latitude zoomLevel : ℝ,
       metersPerPixel latitude zoomLevel =
         40075017 * Real.cos (latitude * (Real.pi / 180)) / (2 : ℝ) ^ (zoomLevel + 8)) ∧
    metersPerPixel 0 0 = 40075017 / 256 ∧
    (∀ zoomLevel lat₁ lat₂ : ℝ, |lat₁| < |lat₂| → |lat₂| ≤ 90 →
       metersPerPixel lat₂ zoomLevel < metersPerPixel lat₁ zoomLevel) := by
  refine ⟨fun latitude zoomLevel => rfl, ?_, ?_⟩
  · show (40075017 : ℝ) * Real.cos (0 * (Real.pi / 180)) / (2 : ℝ) ^ ((0:ℝ) + 8) = 40075017 / 256
    rw [zero_mul, Real.cos_zero, mul_one]
    rw [show ((0:ℝ) + 8) = ((8:ℕ) : ℝ) by norm_num, Real.rpow_natCast]
    norm_num
  · intro zoomLevel lat₁ lat₂ h1 h2
    show (40075017 : ℝ) * Real.cos (lat₂ * (Real.pi / 180)) / (2 : ℝ) ^ (zoomLevel + 8) <
      (40075017 : ℝ) * Real.cos (lat₁ * (Real.pi / 180)) / (2 : ℝ) ^ (zoomLevel + 8)
    have hD : (0:ℝ) < (2 : ℝ) ^ (zoomLevel + 8) :=
      Real.rpow_pos_of_pos (by norm_num) _
    have hpi : (0:ℝ) < Real.pi / 180 := by positivity
    have habs : ∀ lat : ℝ, Real.cos (lat * (Real.pi / 180)) = Real.cos (|lat| * (Real.pi / 180)) := by
      intro lat
      rw [show |lat| * (Real.pi / 180) = |lat * (Real.pi / 180)| by
        rw [abs_mul, abs_of_pos hpi]]
      rw [Real.cos_abs]
    have hmem₁ : |lat₁| * (Real.pi / 180) ∈ Set.Icc (0:ℝ) Real.pi := by
      constructor
      · positivity
      · have : |lat₁| ≤ 90 := le_of_lt (lt_of_lt_of_le h1 h2)
        have := mul_le_mul_of_nonneg_right this (le_of_lt hpi)
        calc |lat₁| * (Real.pi / 180) ≤ 90 * (Real.pi / 180) := this
          _ = Real.pi / 2 := by ring
          _ ≤ Real.pi := by linarith [Real.pi_pos]
    have hmem₂ : |lat₂| * (Real.pi / 180) ∈ Set.Icc (0:ℝ) Real.pi := by
      constructor
      · positivity
      · have := mul_le_mul_of_nonneg_right h2 (le_of_lt hpi)
        calc |lat₂| * (Real.pi / 180) ≤ 90 * (Real.pi / 180) := this
          _ = Real.pi / 2 := by ring
          _ ≤ Real.pi := by linarith [Real.pi_pos]
    have hlt : |lat₁| * (Real.pi / 180) < |lat₂| * (Real.pi / 180) :=
      mul_lt_mul_of_pos_right h1 hpi
    have hcos : Real.cos (|lat₂| * (Real.pi / 180)) < Real.cos (|lat₁| * (Real.pi / 180)) :=
      Real.strictAntiOn_cos hmem₁ hmem₂ hlt
    rw [habs lat₁, habs lat₂]
    have hnum : (40075017:ℝ) * Real.cos (|lat₂| * (Real.pi / 180)) <
        (40075017:ℝ) * Real.cos (|lat₁| * (Real.pi / 180)) :=
      mul_lt_mul_of_pos_left hcos (by norm_num)
    exact (div_lt_div_iff_of_pos_right hD).mpr hnum


/-- Witness for c7_metersPerPixel at zoom 0 and latitudes 0 and 60. -/
theorem c7_metersPerPixel_witness :
    |(0:ℝ)| < |(60:ℝ)| ∧ |(60:ℝ)| ≤ 90 ∧
    metersPerPixel 60 0 < metersPerPixel 0 0 :=
  ⟨by norm_num, by norm_num, c7_metersPerPixel.2.2 0 0 60 (by norm_num) (by norm_num)⟩

/-- C2: for a segment-type result with endpoints A and B and nearest point
C, the resolver returns exactly what the specification describes: the nearer
endpoint (or the strictly-nearer midpoint when enabled) when its distance to
C is below the priority distance, and C otherwise. -/
theorem c2_priority_resolution (T : Turf) (snapOptions : Option SnapSubOptions)
    (priorityDistanceKm : ℝ) (A B : Coord) (r : ClosestLayerResult)
    (hseg : r.segment = some [A, B]) :
    checkPrioritiySnapping T r snapOptions (some priorityDistanceKm) =
      some (resolveSpec T snapOptions priorityDistanceKm A B r.latlng) := by
  unfold checkPrioritiySnapping snapToLineOrPolygon resolveSpec
  rw [hseg]
  simp only [Option.isNone_some, Bool.false_eq_true, if_false, Option.getD_some]
  rcases snapOptions with _ | so
  · simp [ite_lt_eq_min]
  · by_cases hm : so.snapToMidPoints = true
    · by_cases hc :
        T.dist (T.midpoint A B) (r.latlng.lng, r.latlng.lat) <
            T.dist A (r.latlng.lng, r.latlng.lat) ∧
          T.dist (T.midpoint A B) (r.latlng.lng, r.latlng.lat) <
            T.dist B (r.latlng.lng, r.latlng.lat)
      · simp [hm, hc]
      · simp [hm, hc, ite_lt_eq_min]
    · simp [hm, ite_lt_eq_min]

/-- Witness for c2_priority_resolution at the concrete record r2. -/
theorem c2_priority_resolution_witness :
    r2.segment = some [((0:ℝ), (0:ℝ)), ((0:ℝ), (1:ℝ))] ∧
    checkPrioritiySnapping T0 r2 none (some 1) =
      some (resolveSpec T0 none 1 ((0:ℝ), (0:ℝ)) ((0:ℝ), (1:ℝ)) r2.latlng) :=
  ⟨rfl, c2_priority_resolution T0 none 1 ((0:ℝ), (0:ℝ)) ((0:ℝ), (1:ℝ)) r2 rfl⟩

/-- When the nearest point coincides with the second endpoint of the
segment, snapToLineOrPolygon returns that endpoint for every priority
distance. -/
theorem snapToLineOrPolygon_last_vertex (T : Turf) (X Y : Coord)
    (r : ClosestLayerResult) (snapOptions : Option SnapSubOptions) (pd : ℝ)
    (hseg : r.segment = some [X, Y]) (hll : r.latlng = ⟨Y.1, Y.2⟩)
    (hnn : TurfDistNonneg T) (hrefl : TurfDistRefl T) :
    snapToLineOrPolygon T r snapOptions pd = some ⟨Y.1, Y.2⟩ := by
  unfold snapToLineOrPolygon
  rw [hseg]
  dsimp only
  rw [hll]
  dsimp only
  have hC : ((Y.1 : ℝ), (Y.2 : ℝ)) = Y := Prod.mk.eta
  rw [hC]
  rw [hrefl Y]
  rw [if_neg (not_lt.mpr (hnn X Y))]
  have hmid : ¬(T.dist (T.midpoint X Y) Y < T.dist X Y ∧ T.dist (T.midpoint X Y) Y < 0) :=
    fun h => absurd h.2 (not_lt.mpr (hnn (T.midpoint X Y) Y))
  rcases snapOptions with _ | so
  · split_ifs <;> simp
  · by_cases hm : so.snapToMidPoints = true
    · simp only [hm, if_true, if_neg hmid]
      split_ifs <;> simp
    · simp only [hm, Bool.false_eq_true, if_false]
      split_ifs <;> simp

/-- When the nearest point coincides with the first endpoint of the segment,
snapToLineOrPolygon returns that endpoint for every priority distance. -/
theorem snapToLineOrPolygon_first_vertex (T : Turf) (X Y : Coord)
    (r : ClosestLayerResult) (snapOptions : Option SnapSubOptions) (pd : ℝ)
    (hseg : r.segment = some [X, Y]) (hll : r.latlng = ⟨X.1, X.2⟩)
    (hnn : TurfDistNonneg T) (hrefl : TurfDistRefl T) (hdef : TurfDistDefinite T) :
    snapToLineOrPolygon T r snapOptions pd = some ⟨X.1, X.2⟩ := by
  unfold snapToLineOrPolygon
  rw [hseg]
  dsimp only
  rw [hll]
  dsimp only
  have hC : ((X.1 : ℝ), (X.2 : ℝ)) = X := Prod.mk.eta
  rw [hC]
  rw [hrefl X]
  by_cases hY : (0:ℝ) < T.dist Y X
  · rw [if_pos hY, if_pos hY]
    have hmid : ¬(T.dist (T.midpoint X Y) X < 0 ∧ T.dist (T.midpoint X Y) X < T.dist Y X) :=
      fun h => absurd h.1 (not_lt.mpr (hnn (T.midpoint X Y) X))
    rcases snapOptions with _ | so
    · split_ifs <;> simp
    · by_cases hm : so.snapToMidPoints = true
      · simp only [hm, if_true, if_neg hmid]
        split_ifs <;> simp
      · simp only [hm, Bool.false_eq_true, if_false]
        split_ifs <;> simp
  · have hY0 : T.dist Y X = 0 := le_antisymm (not_lt.mp hY) (hnn Y X)
    have heq : Y = X := hdef Y X hY0
    rw [if_neg hY, if_neg hY, hY0]
    have hmid : ¬(T.dist (T.midpoint X Y) X < 0 ∧ T.dist (T.midpoint X Y) X < 0) :=
      fun h => absurd h.1 (not_lt.mpr (hnn (T.midpoint X Y) X))
    rcases snapOptions with _ | so
    · split_ifs <;> simp [heq]
    · by_cases hm : so.snapToMidPoints = true
      · simp only [hm, if_true, if_neg hmid]
        split_ifs <;> simp [heq]
      · simp only [hm, Bool.false_eq_true, if_false]
        split_ifs <;> simp [heq]


/-- C8: for a LineString [A, B, C] queried exactly at the interior vertex B,
the resolver applied to the kernel result returns B for every value of the
priority distance, including 0 (and including the defaulted undefined). -/
theorem c8_query_at_interior_vertex (T : Turf) (A B C : Coord)
    (snapOptions : Option SnapSubOptions) (pd : Option ℝ)
    (hnn : TurfDistNonneg T) (hrefl : TurfDistRefl T) (hdef : TurfDistDefinite T)
    (hcoord : (T.nearestPointOnLine (.lineString [A, B, C]) B).coord = B)
    (r : ClosestLayerResult)
    (hr : calcLayerDistances T ⟨B.1, B.2⟩ (.lineString [A, B, C]) = some r) :
    checkPrioritiySnapping T r snapOptions pd = some ⟨B.1, B.2⟩ := by
  have hr' : lineResult (T.nearestPointOnLine (.lineString [A, B, C]) (B.1, B.2)) [A, B, C] = r :=
    Option.some.inj hr
  subst hr'
  set np := T.nearestPointOnLine (.lineString [A, B, C]) (B.1, B.2) with hnpdef
  have hcoord' : np.coord = B := hcoord
  have hsegSome : (lineResult np [A, B, C]).segment.isNone = false := by
    simp [lineResult]
  rw [checkPrioritiySnapping]
  simp only [hsegSome, Bool.false_eq_true, if_false]
  rcases hidx : np.index with _ | j
  · refine snapToLineOrPolygon_last_vertex T A B _ snapOptions _ ?_ ?_ hnn hrefl
    · simp [lineResult, hidx]
    · simp [lineResult, hcoord']
  · rcases j with _ | k
    · refine snapToLineOrPolygon_first_vertex T B C _ snapOptions _ ?_ ?_ hnn hrefl hdef
      · simp [lineResult, hidx]
      · simp [lineResult, hcoord']
    · refine snapToLineOrPolygon_first_vertex T B C _ snapOptions _ ?_ ?_ hnn hrefl hdef
      · simp [lineResult, hidx, show k + 2 + 1 ≥ 3 by omega]
      · simp [lineResult, hcoord']

/-- Witness for c8_query_at_interior_vertex on the concrete line
[(0,0), (1,0), (2,0)] queried at (1,0) with priority distance 0. -/
theorem c8_query_at_interior_vertex_witness :
    TurfDistNonneg T0 ∧ TurfDistRefl T0 ∧ TurfDistDefinite T0 ∧
    (T0.nearestPointOnLine
        (Geometry.lineString [((0:ℝ), (0:ℝ)), ((1:ℝ), (0:ℝ)), ((2:ℝ), (0:ℝ))])
        ((1:ℝ), (0:ℝ))).coord = ((1:ℝ), (0:ℝ)) ∧
    calcLayerDistances T0 ⟨1, 0⟩
      (Geometry.lineString [((0:ℝ), (0:ℝ)), ((1:ℝ), (0:ℝ)), ((2:ℝ), (0:ℝ))]) = some r8 ∧
    checkPrioritiySnapping T0 r8 none (some 0) = some ⟨1, 0⟩ :=
  ⟨T0_dist_nonneg, T0_dist_refl, T0_dist_definite, rfl, rfl,
   c8_query_at_interior_vertex T0 ((0:ℝ), (0:ℝ)) ((1:ℝ), (0:ℝ)) ((2:ℝ), (0:ℝ)) none (some 0)
     T0_dist_nonneg T0_dist_refl T0_dist_definite rfl r8 rfl⟩


/-- C9: calling snap twice with the identical event and the unchanged
candidate list, vertex set and options yields the identical resolved
coordinate; the guide-state mutations of the first call do not affect the
result of the second call. -/
theorem c9_snap_idempotent (T : Turf) (s : SnapState) (e : Event) :
    (snap T (snap T s e).1 e).2 = (snap T s e).2 := by
  obtain ⟨h1, h2, h3, h4⟩ := snap_core T s e
  exact snap_snd_congr T (snap T s e).1 s e h1 h2 h3 h4

/-- The segment of a lineResult over a sequence of at least two coordinates
is a contiguous pair of that sequence. -/
theorem lineResult_segment (np : TurfNearest) (cs : List Coord)
    (hlen : 2 ≤ cs.length) :
    ∃ i : ℕ, ∃ a b, cs[i]? = some a ∧ cs[i+1]? = some b ∧
      (lineResult np cs).segment = some [a, b] := by
  by_cases hc : np.index + 1 ≥ cs.length
  · have h1 : cs.length - 2 + 1 < cs.length := by omega
    obtain ⟨a, b, ha, hb, hdt⟩ := drop_take_pair cs (cs.length - 2) h1
    exact ⟨cs.length - 2, a, b, ha, hb, by simp [lineResult, hc, hdt]⟩
  · have h1 : np.index + 1 < cs.length := by omega
    obtain ⟨a, b, ha, hb, hdt⟩ := drop_take_pair cs np.index h1
    exact ⟨np.index, a, b, ha, hb, by simp [lineResult, hc, hdt]⟩

/-- A lineResult segment over a long-enough sequence has exactly two entries
and is a contiguous pair of the sequence. -/
theorem lineResult_props (np : TurfNearest) (cs : List Coord)
    (hlen : 2 ≤ cs.length) :
    ∀ seg, (lineResult np cs).segment = some seg →
      seg.length = 2 ∧ ∃ i : ℕ, ∃ a b, cs[i]? = some a ∧ cs[i+1]? = some b ∧ seg = [a, b] := by
  intro seg hseg
  obtain ⟨i, a, b, ha, hb, hpair⟩ := lineResult_segment np cs hlen
  rw [hpair] at hseg
  obtain rfl := Option.some.inj hseg
  exact ⟨rfl, i, a, b, ha, hb, rfl⟩

/-- C6: for a line-like candidate whose coordinate sequences all have at
least two entries, the segment of a kernel result is a two-entry contiguous
pair of one of the coordinate sequences of the candidate, an out-of-range nearest
segment index is clamped to the last consecutive pair of a LineString, and
the distance is nonnegative whenever the library reports nonnegative
distances. -/
theorem c6_segment_invariant (T : Turf) (q : LngLat) (g : Geometry)
    (hline : g.isLineLike = true) (hwf : AllSeqsLong g)
    (hnn : TurfNearestNonneg T)
    (r : ClosestLayerResult) (hr : calcLayerDistances T q g = some r) :
    0 ≤ r.distance ∧
    (∀ seg, r.segment = some seg →
      seg.length = 2 ∧
      ∃ cs ∈ g.coordSeqs, ∃ i : ℕ, ∃ a b,
        cs[i]? = some a ∧ cs[i+1]? = some b ∧ seg = [a, b]) ∧
    (∀ cs, g = .lineString cs →
      (T.nearestPointOnLine (.lineString cs) (q.lng, q.lat)).index + 1 ≥ cs.length →
      r.segment = some ((cs.drop (cs.length - 2)).take 2)) := by
  cases g with
  | point c => simp [Geometry.isLineLike] at hline
  | multiPoint cs => simp [Geometry.isLineLike] at hline
  | lineString cs =>
    have hcs : 2 ≤ cs.length := hwf cs (by simp [Geometry.coordSeqs])
    have hr' : lineResult (T.nearestPointOnLine (.lineString cs) (q.lng, q.lat)) cs = r :=
      Option.some.inj hr
    subst hr'
    refine ⟨?_, ?_, ?_⟩
    · simpa [lineResult] using hnn (.lineString cs) (q.lng, q.lat)
    · intro seg hseg
      obtain ⟨hlen2, i, a, b, ha, hb, hab⟩ :=
        lineResult_props (T.nearestPointOnLine (.lineString cs) (q.lng, q.lat)) cs hcs seg hseg
      exact ⟨hlen2, cs, by simp [Geometry.coordSeqs], i, a, b, ha, hb, hab⟩
    · intro cs' hg hidx
      injection hg with hcc
      subst hcc
      simp [lineResult, hidx]
  | multiLineString css =>
    rcases hm : css[(T.nearestPointOnLine (.multiLineString css) (q.lng, q.lat)).multiFeatureIndex]?
        with _ | cs
    · rw [show calcLayerDistances T q (.multiLineString css) =
          (match css[(T.nearestPointOnLine (.multiLineString css) (q.lng, q.lat)).multiFeatureIndex]? with
           | none => none
           | some cs => some (lineResult (T.nearestPointOnLine (.multiLineString css) (q.lng, q.lat)) cs))
          from rfl, hm] at hr
      exact absurd hr (by simp)
    · rw [show calcLayerDistances T q (.multiLineString css) =
          (match css[(T.nearestPointOnLine (.multiLineString css) (q.lng, q.lat)).multiFeatureIndex]? with
           | none => none
           | some cs => some (lineResult (T.nearestPointOnLine (.multiLineString css) (q.lng, q.lat)) cs))
          from rfl, hm] at hr
      have hr' : lineResult (T.nearestPointOnLine (.multiLineString css) (q.lng, q.lat)) cs = r :=
        Option.some.inj hr
      subst hr'
      have hmem : cs ∈ css := List.getElem?_mem hm
      have hcs : 2 ≤ cs.length := hwf cs (by simpa [Geometry.coordSeqs] using hmem)
      refine ⟨?_, ?_, ?_⟩
      · simpa [lineResult] using hnn (.multiLineString css) (q.lng, q.lat)
      · intro seg hseg
        obtain ⟨hlen2, i, a, b, ha, hb, hab⟩ :=
          lineResult_props (T.nearestPointOnLine (.multiLineString css) (q.lng, q.lat)) cs hcs seg hseg
        exact ⟨hlen2, cs, by simpa [Geometry.coordSeqs] using hmem, i, a, b, ha, hb, hab⟩
      · intro cs' hg
        exact absurd hg (by simp)
  | polygon rings =>
    rcases hp : polygonToLineRings rings with _ | lineStrings
    · rw [show calcLayerDistances T q (.polygon rings) =
          (match polygonToLineRings rings with
           | none => none
           | some lineStrings =>
             match getFeatureWithNearestPoint T lineStrings (q.lng, q.lat) with
             | none => none
             | some (winner, np) => some (lineResult np winner)) from rfl, hp] at hr
      exact absurd hr (by simp)
    · rw [show calcLayerDistances T q (.polygon rings) =
          (match polygonToLineRings rings with
           | none => none
           | some lineStrings =>
             match getFeatureWithNearestPoint T lineStrings (q.lng, q.lat) with
             | none => none
             | some (winner, np) => some (lineResult np winner)) from rfl, hp] at hr
      dsimp only at hr
      rcases hw : getFeatureWithNearestPoint T lineStrings (q.lng, q.lat) with _ | ⟨winner, np⟩
      · rw [hw] at hr
        exact absurd hr (by simp)
      · rw [hw] at hr
        have hr' : lineResult np winner = r := Option.some.inj hr
        subst hr'
        obtain ⟨hwmem, hnp⟩ := getFeatureWithNearestPoint_mem T lineStrings _ winner np hw
        have hLS : lineStrings = rings := polygonToLineRings_eq hp
        subst hLS
        have hwin : 2 ≤ winner.length := hwf winner (by simpa [Geometry.coordSeqs] using hwmem)
        refine ⟨?_, ?_, ?_⟩
        · rw [show (lineResult np winner).distance = np.dist from rfl, hnp]
          exact hnn (.lineString winner) (q.lng, q.lat)
        · intro seg hseg
          obtain ⟨hlen2, i, a, b, ha, hb, hab⟩ := lineResult_props np winner hwin seg hseg
          exact ⟨hlen2, winner, by simpa [Geometry.coordSeqs] using hwmem, i, a, b, ha, hb, hab⟩
        · intro cs' hg
          exact absurd hg (by simp)
  | multiPolygon polys =>
    rcases hp : polys.mapM polygonToLineRings with _ | ringLists
    · rw [show calcLayerDistances T q (.multiPolygon polys) =
          (match polys.mapM polygonToLineRings with
           | none => none
           | some ringLists =>
             match getFeatureWithNearestPoint T (flattenLists ringLists) (q.lng, q.lat) with
             | none => none
             | some (winner, np) => some (lineResult np winner)) from rfl, hp] at hr
      exact absurd hr (by simp)
    · rw [show calcLayerDistances T q (.multiPolygon polys) =
          (match polys.mapM polygonToLineRings with
           | none => none
           | some ringLists =>
             match getFeatureWithNearestPoint T (flattenLists ringLists) (q.lng, q.lat) with
             | none => none
             | some (winner, np) => some (lineResult np winner)) from rfl, hp] at hr
      dsimp only at hr
      rcases hw : getFeatureWithNearestPoint T (flattenLists ringLists) (q.lng, q.lat)
          with _ | ⟨winner, np⟩
      · rw [hw] at hr
        exact absurd hr (by simp)
      · rw [hw] at hr
        have hr' : lineResult np winner = r := Option.some.inj hr
        subst hr'
        obtain ⟨hwmem, hnp⟩ :=
          getFeatureWithNearestPoint_mem T (flattenLists ringLists) _ winner np hw
        have hRL : ringLists = polys := mapM_polygonToLineRings_eq hp
        subst hRL
        have hwin : 2 ≤ winner.length := hwf winner (by simpa [Geometry.coordSeqs] using hwmem)
        refine ⟨?_, ?_, ?_⟩
        · rw [show (lineResult np winner).distance = np.dist from rfl, hnp]
          exact hnn (.lineString winner) (q.lng, q.lat)
        · intro seg hseg
          obtain ⟨hlen2, i, a, b, ha, hb, hab⟩ := lineResult_props np winner hwin seg hseg
          exact ⟨hlen2, winner, by simpa [Geometry.coordSeqs] using hwmem, i, a, b, ha, hb, hab⟩
        · intro cs' hg
          exact absurd hg (by simp)


/-- Witness for c6_segment_invariant on the concrete two-vertex line g6. -/
theorem c6_segment_invariant_witness :
    g6.isLineLike = true ∧ AllSeqsLong g6 ∧ TurfNearestNonneg T0 ∧
    calcLayerDistances T0 ⟨0, 0⟩ g6 = some r6 ∧
    0 ≤ r6.distance ∧
    (([((0:ℝ), (0:ℝ)), ((1:ℝ), (0:ℝ))] : List Coord).length = 2 ∧
      ∃ cs ∈ g6.coordSeqs, ∃ i : ℕ, ∃ a b,
        cs[i]? = some a ∧ cs[i+1]? = some b ∧
          ([((0:ℝ), (0:ℝ)), ((1:ℝ), (0:ℝ))] : List Coord) = [a, b]) :=
  have hwf : AllSeqsLong g6 := by
    intro cs hcs
    simp only [g6, Geometry.coordSeqs, List.mem_singleton] at hcs
    subst hcs
    simp
  ⟨rfl, hwf, T0_nearest_nonneg, rfl,
   (c6_segment_invariant T0 ⟨0, 0⟩ g6 rfl hwf T0_nearest_nonneg r6 rfl).1,
   (c6_segment_invariant T0 ⟨0, 0⟩ g6 rfl hwf T0_nearest_nonneg r6 rfl).2.1
     [((0:ℝ), (0:ℝ)), ((1:ℝ), (0:ℝ))] rfl⟩

/-- C1: with no bypass modifier, a non-empty candidate list and feature
snapping enabled, when the feature stage completes normally the tolerance is
snapPx (default 50) times metersPerPixel at the query latitude and zoom, the
snap coordinate is the output of the resolver, and the returned coordinate is the
resolved snap coordinate exactly when the closest distance in kilometers
times 1000 is below that tolerance; otherwise each truthy guide match
replaces its axis component of the raw coordinate, and with no truthy guide
match the raw coordinate is returned unmodified. -/
theorem c1_final_decision (T : Turf) (s : SnapState) (e : Event)
    (cl : ClosestLayerResult) (sl : LngLat) (md : ℝ)
    (halt : e.altKey = false) (hne : s.snapList ≠ [])
    (hsnap : s.options.snap = true)
    (hstage : snapFeatureStage T s e.lngLat.lng e.lngLat.lat = FeatureStage.ready cl sl md) :
    md = snapPxConfigured s.options * metersPerPixel e.lngLat.lat s.map.zoom ∧
    (cl.isMarker = false →
      checkPrioritiySnapping T cl s.options.snapOptions
        (configuredPriorityDistance s.options) = some sl) ∧
    (snap T s e).2 =
      some (if cl.distance * 1000 < md then sl
        else if jsTruthyR (snapGuideStage s e).2.1 || jsTruthyR (snapGuideStage s e).2.2 then
          ⟨(match (snapGuideStage s e).2.1 with
            | some v => if v = 0 then e.lngLat.lng else v
            | none => e.lngLat.lng),
           (match (snapGuideStage s e).2.2 with
            | some hz => if hz = 0 then e.lngLat.lat else hz
            | none => e.lngLat.lat)⟩
        else ⟨e.lngLat.lng, e.lngLat.lat⟩) := by
  have hlen' : ¬ s.snapList.length ≤ 0 := fun hl =>
    hne (List.length_eq_zero.mp (Nat.le_zero.mp hl))
  have hmain : md = snapPxConfigured s.options * metersPerPixel e.lngLat.lat s.map.zoom ∧
      (cl.isMarker = false →
        checkPrioritiySnapping T cl s.options.snapOptions
          (configuredPriorityDistance s.options) = some sl) := by
    unfold snapFeatureStage at hstage
    rw [hsnap] at hstage
    simp only [if_true] at hstage
    rcases hc : calcClosestLayer T ⟨e.lngLat.lng, e.lngLat.lat⟩ s.snapList with _ | (_ | cl')
    · rw [hc] at hstage; simp at hstage
    · rw [hc] at hstage; simp at hstage
    · rw [hc] at hstage
      dsimp only at hstage
      rcases hsl : (if cl'.isMarker = true then some cl'.latlng
          else checkPrioritiySnapping T cl' s.options.snapOptions
            (configuredPriorityDistance s.options)) with _ | sl'
      · rw [hsl] at hstage; simp at hstage
      · rw [hsl] at hstage
        simp only [FeatureStage.ready.injEq] at hstage
        obtain ⟨h1, h2, h3⟩ := hstage
        subst h1
        subst h2
        subst h3
        refine ⟨rfl, fun hmk => ?_⟩
        rw [hmk] at hsl
        simpa using hsl
  refine ⟨hmain.1, hmain.2, ?_⟩
  rw [snap_eq_branch T s e halt hlen', hstage]
  dsimp only
  unfold snapFinal snapGuideFallback
  rcases (snapGuideStage s e).2.1 with _ | v <;> rcases (snapGuideStage s e).2.2 with _ | hz <;>
    simp [jsTruthyR]


/-- Witness for c1_final_decision at the concrete state s1 and event e1. -/
theorem c1_final_decision_witness :
    e1.altKey = false ∧ s1.snapList ≠ [] ∧ s1.options.snap = true ∧
    snapFeatureStage T0 s1 e1.lngLat.lng e1.lngLat.lat =
      FeatureStage.ready cl1 ⟨0, 0⟩ ((50:ℝ) * metersPerPixel 0 0) ∧
    ((50:ℝ) * metersPerPixel 0 0 =
      snapPxConfigured s1.options * metersPerPixel e1.lngLat.lat s1.map.zoom) ∧
    checkPrioritiySnapping T0 cl1 s1.options.snapOptions
      (configuredPriorityDistance s1.options) = some ⟨0, 0⟩ ∧
    (snap T0 s1 e1).2 =
      some (if cl1.distance * 1000 < (50:ℝ) * metersPerPixel 0 0 then (⟨0, 0⟩ : LngLat)
        else if jsTruthyR (snapGuideStage s1 e1).2.1 || jsTruthyR (snapGuideStage s1 e1).2.2 then
          ⟨(match (snapGuideStage s1 e1).2.1 with
            | some v => if v = 0 then e1.lngLat.lng else v
            | none => e1.lngLat.lng),
           (match (snapGuideStage s1 e1).2.2 with
            | some hz => if hz = 0 then e1.lngLat.lat else hz
            | none => e1.lngLat.lat)⟩
        else ⟨e1.lngLat.lng, e1.lngLat.lat⟩) := by
  have hne : s1.snapList ≠ [] := List.cons_ne_nil _ _
  have h := c1_final_decision T0 s1 e1 cl1 ⟨0, 0⟩ ((50:ℝ) * metersPerPixel 0 0) rfl hne rfl rfl
  exact ⟨rfl, hne, rfl, rfl, h.1, h.2.1 rfl, h.2.2⟩


/-- The guide stage on a truthy or zero vertical match: the flag records the
truthiness of the match, the verticalPx local carries the matched value, and the
vertical guide feature is rewritten exactly for truthy matches. -/
theorem snapGuideStage_vertical (s : SnapState) (e : Event) (v : ℝ)
    (hguides : s.options.guides = true)
    (hv : (getNearbyvertices s.vertices e.lngLat).1 = some v) :
    (snapGuideStage s e).1.showVerticalSnapLine = jsTruthyR (some v) ∧
    (snapGuideStage s e).2.1 = some v ∧
    (v = 0 → (snapGuideStage s e).1.verticalGuide = s.verticalGuide) ∧
    (v ≠ 0 →
      (snapGuideStage s e).1.verticalGuide =
        updateCoordinate (updateCoordinate s.verticalGuide 0 v (e.lngLat.lat + 10))
          1 v (e.lngLat.lat - 10)) := by
  unfold snapGuideStage
  simp only [hguides, if_true, hv]
  by_cases h0 : v = 0
  · rcases hh : (getNearbyvertices s.vertices e.lngLat).2 with _ | hz
    · simp [h0]
    · by_cases hz0 : hz = 0
      · simp [h0, hz0]
      · simp [h0, hz0]
  · rcases hh : (getNearbyvertices s.vertices e.lngLat).2 with _ | hz
    · simp [h0]
    · by_cases hz0 : hz = 0
      · simp [h0, hz0]
      · simp [h0, hz0]

/-- The guide stage on a truthy or zero horizontal match, symmetric to the
vertical lemma. -/
theorem snapGuideStage_horizontal (s : SnapState) (e : Event) (hz : ℝ)
    (hguides : s.options.guides = true)
    (hh : (getNearbyvertices s.vertices e.lngLat).2 = some hz) :
    (snapGuideStage s e).1.showHorizontalSnapLine = jsTruthyR (some hz) ∧
    (snapGuideStage s e).2.2 = some hz ∧
    (hz = 0 → (snapGuideStage s e).1.horizontalGuide = s.horizontalGuide) ∧
    (hz ≠ 0 →
      (snapGuideStage s e).1.horizontalGuide =
        updateCoordinate (updateCoordinate s.horizontalGuide 0 (e.lngLat.lng + 10) hz)
          1 (e.lngLat.lng - 10) hz) := by
  unfold snapGuideStage
  simp only [hguides, if_true, hh]
  by_cases h0 : hz = 0
  · rcases hv : (getNearbyvertices s.vertices e.lngLat).1 with _ | v
    · simp [h0]
    · by_cases hv0 : v = 0
      · simp [h0, hv0]
      · simp [h0, hv0]
  · rcases hv : (getNearbyvertices s.vertices e.lngLat).1 with _ | v
    · simp [h0]
    · by_cases hv0 : v = 0
      · simp [h0, hv0]
      · simp [h0, hv0]


/-- With guides enabled, the verticalPx and horizontalPx locals of the guide
stage are exactly the two matches of the resolver. -/
theorem snapGuideStage_snd (s : SnapState) (e : Event)
    (hguides : s.options.guides = true) :
    (snapGuideStage s e).2 = ((getNearbyvertices s.vertices e.lngLat).1,
      (getNearbyvertices s.vertices e.lngLat).2) := by
  unfold snapGuideStage
  simp only [hguides, if_true]


/-- C4 (amended): the guide resolver finds an axis match exactly when some
recorded vertex coordinate lies within 0.009 degrees of the query on that
axis, taking the first such value in vertex iteration order; and when the
matched value is truthy (nonzero) and the call returns normally, both guide
endpoints carry the matched recorded value with the perpendicular components
shifted by plus and minus 10 degrees from the query. -/
theorem c4_guide_resolver (vs : List Coord) (q : LngLat) :
    ((getNearbyvertices vs q).1.isSome ↔ ∃ c ∈ vs, |c.1 - q.lng| < 0.009) ∧
    ((getNearbyvertices vs q).2.isSome ↔ ∃ c ∈ vs, |c.2 - q.lat| < 0.009) ∧
    (∀ x, (getNearbyvertices vs q).1 = some x →
      ∃ i : ℕ, ∃ c, vs[i]? = some c ∧ c.1 = x ∧ |x - q.lng| < 0.009 ∧
        ∀ j, j < i → ∀ c', vs[j]? = some c' → ¬ |c'.1 - q.lng| < 0.009) ∧
    (∀ x, (getNearbyvertices vs q).2 = some x →
      ∃ i : ℕ, ∃ c, vs[i]? = some c ∧ c.2 = x ∧ |x - q.lat| < 0.009 ∧
        ∀ j, j < i → ∀ c', vs[j]? = some c' → ¬ |c'.2 - q.lat| < 0.009) ∧
    (∀ (T : Turf) (s : SnapState) (e : Event) (v : ℝ),
      e.altKey = false → s.snapList ≠ [] → s.options.guides = true →
      s.vertices = vs → e.lngLat = q →
      snapFeatureStage T s q.lng q.lat ≠ FeatureStage.thrown →
      (getNearbyvertices vs q).1 = some v → v ≠ 0 →
      (snap T s e).1.verticalGuide[0]? = some (v, q.lat + 10) ∧
      (snap T s e).1.verticalGuide[1]? = some (v, q.lat - 10)) ∧
    (∀ (T : Turf) (s : SnapState) (e : Event) (hz : ℝ),
      e.altKey = false → s.snapList ≠ [] → s.options.guides = true →
      s.vertices = vs → e.lngLat = q →
      snapFeatureStage T s q.lng q.lat ≠ FeatureStage.thrown →
      (getNearbyvertices vs q).2 = some hz → hz ≠ 0 →
      (snap T s e).1.horizontalGuide[0]? = some (q.lng + 10, hz) ∧
      (snap T s e).1.horizontalGuide[1]? = some (q.lng - 10, hz)) := by
  refine ⟨?_, ?_, ?_, ?_, ?_, ?_⟩
  · rw [show (getNearbyvertices vs q).1 =
        (vs.map (fun c => c.1)).find? (fun px => decide (|px - q.lng| < 0.009)) from rfl,
      List.find?_isSome]
    constructor
    · rintro ⟨x, hx, hpx⟩
      obtain ⟨c, hc, rfl⟩ := List.mem_map.mp hx
      exact ⟨c, hc, by simpa using hpx⟩
    · rintro ⟨c, hc, hlt⟩
      exact ⟨c.1, List.mem_map_of_mem _ hc, by simpa using hlt⟩
  · rw [show (getNearbyvertices vs q).2 =
        (vs.map (fun c => c.2)).find? (fun py => decide (|py - q.lat| < 0.009)) from rfl,
      List.find?_isSome]
    constructor
    · rintro ⟨x, hx, hpx⟩
      obtain ⟨c, hc, rfl⟩ := List.mem_map.mp hx
      exact ⟨c, hc, by simpa using hpx⟩
    · rintro ⟨c, hc, hlt⟩
      exact ⟨c.2, List.mem_map_of_mem _ hc, by simpa using hlt⟩
  · intro x hx
    exact nearbyAxis_first (fun c => c.1) q.lng vs x hx
  · intro x hx
    exact nearbyAxis_first (fun c => c.2) q.lat vs x hx
  · intro T s e v halt hne hguides hvs hq hnothrow hv hv0
    subst hvs
    subst hq
    have hlen' : ¬ s.snapList.length ≤ 0 := fun hl =>
      hne (List.length_eq_zero.mp (Nat.le_zero.mp hl))
    obtain ⟨hflag, hpx, hzero, hupd⟩ := snapGuideStage_vertical s e v hguides hv
    have hgv := hupd hv0
    rw [snap_eq_branch T s e halt hlen']
    cases hst : snapFeatureStage T s e.lngLat.lng e.lngLat.lat with
    | thrown => exact absurd hst hnothrow
    | earlyReturn => exact absurd hst (snapFeatureStage_ne_earlyReturn T s _ _ hne)
    | disabled =>
      dsimp only
      rw [hgv]
      exact updateCoordinate_pair s.verticalGuide v (e.lngLat.lat + 10) v (e.lngLat.lat - 10)
    | ready cl sl md =>
      dsimp only
      rw [hgv]
      exact updateCoordinate_pair s.verticalGuide v (e.lngLat.lat + 10) v (e.lngLat.lat - 10)
  · intro T s e hz halt hne hguides hvs hq hnothrow hh hz0
    subst hvs
    subst hq
    have hlen' : ¬ s.snapList.length ≤ 0 := fun hl =>
      hne (List.length_eq_zero.mp (Nat.le_zero.mp hl))
    obtain ⟨hflag, hpx, hzero, hupd⟩ := snapGuideStage_horizontal s e hz hguides hh
    have hgh := hupd hz0
    rw [snap_eq_branch T s e halt hlen']
    cases hst : snapFeatureStage T s e.lngLat.lng e.lngLat.lat with
    | thrown => exact absurd hst hnothrow
    | earlyReturn => exact absurd hst (snapFeatureStage_ne_earlyReturn T s _ _ hne)
    | disabled =>
      dsimp only
      rw [hgh]
      exact updateCoordinate_pair s.horizontalGuide (e.lngLat.lng + 10) hz
        (e.lngLat.lng - 10) hz
    | ready cl sl md =>
      dsimp only
      rw [hgh]
      exact updateCoordinate_pair s.horizontalGuide (e.lngLat.lng + 10) hz
        (e.lngLat.lng - 10) hz


/-- Counterexample to C4 as stated: at s4 and e4 a vertical guide match
exists (the recorded longitude 0 is within tolerance of the query longitude
0.001), yet the guide endpoints are not updated, and the returned coordinate
keeps the raw longitude instead of the matched value. -/
theorem c4_counterexample :
    (getNearbyvertices s4.vertices e4.lngLat).1 = some 0 ∧
    (snap T0 s4 e4).1.verticalGuide = [] ∧
    (snap T0 s4 e4).1.verticalGuide ≠
      [((0:ℝ), e4.lngLat.lat + 10), ((0:ℝ), e4.lngLat.lat - 10)] ∧
    (snap T0 s4 e4).2 = some ⟨e4.lngLat.lng, e4.lngLat.lat⟩ := by
  have hv : (getNearbyvertices s4.vertices e4.lngLat).1 = some 0 := by
    simp only [getNearbyvertices, s4, e4, List.map_cons, List.map_nil]
    rw [List.find?_cons_of_pos]
    simp only [decide_eq_true_eq]
    norm_num [abs_lt]
  have hh : (getNearbyvertices s4.vertices e4.lngLat).2 = none := by
    simp only [getNearbyvertices, s4, e4, List.map_cons, List.map_nil]
    rw [List.find?_cons_of_neg]
    · rfl
    · simp only [decide_eq_true_eq, not_lt]
      norm_num [abs_le]
  have hlen' : ¬ s4.snapList.length ≤ 0 := by simp [s4]
  have hsnap : snap T0 s4 e4 =
      ((snapGuideStage s4 e4).1,
        some (snapFinal none e4.lngLat.lng e4.lngLat.lat
          (snapGuideStage s4 e4).2.1 (snapGuideStage s4 e4).2.2)) := by
    rw [snap_eq_branch T0 s4 e4 rfl hlen']
    rw [show snapFeatureStage T0 s4 e4.lngLat.lng e4.lngLat.lat = FeatureStage.disabled from rfl]
  obtain ⟨hflag, hpx, hzero, hupd⟩ := snapGuideStage_vertical s4 e4 0 rfl hv
  have hguide : (snapGuideStage s4 e4).1.verticalGuide = s4.verticalGuide := hzero rfl
  have hsnd : (snapGuideStage s4 e4).2 = (some 0, none) := by
    rw [snapGuideStage_snd s4 e4 rfl, hv, hh]
  refine ⟨hv, ?_, ?_, ?_⟩
  · rw [hsnap]
    exact hguide
  · rw [hsnap]
    rw [show ((snapGuideStage s4 e4).1, some (snapFinal none e4.lngLat.lng e4.lngLat.lat
      (snapGuideStage s4 e4).2.1 (snapGuideStage s4 e4).2.2)).1 = (snapGuideStage s4 e4).1 from rfl]
    rw [hguide]
    simp [s4]
  · rw [hsnap]
    have h1 : (snapGuideStage s4 e4).2.1 = some 0 := by rw [hsnd]
    have h2 : (snapGuideStage s4 e4).2.2 = none := by rw [hsnd]
    rw [show ((snapGuideStage s4 e4).1, some (snapFinal none e4.lngLat.lng e4.lngLat.lat
      (snapGuideStage s4 e4).2.1 (snapGuideStage s4 e4).2.2)).2 = some (snapFinal none
      e4.lngLat.lng e4.lngLat.lat (snapGuideStage s4 e4).2.1 (snapGuideStage s4 e4).2.2) from rfl]
    rw [h1, h2]
    simp [snapFinal, snapGuideFallback, jsTruthyR]

/-- Witness for c4_guide_resolver at s4b and e4b, whose single vertex matches
both axes with truthy values 7 and 20. -/
theorem c4_guide_resolver_witness :
    ((getNearbyvertices s4b.vertices e4b.lngLat).1.isSome ↔
      ∃ c ∈ s4b.vertices, |c.1 - e4b.lngLat.lng| < 0.009) ∧
    e4b.altKey = false ∧ s4b.snapList ≠ [] ∧ s4b.options.guides = true ∧
    (getNearbyvertices s4b.vertices e4b.lngLat).1 = some 7 ∧ (7:ℝ) ≠ 0 ∧
    (getNearbyvertices s4b.vertices e4b.lngLat).2 = some 20 ∧ (20:ℝ) ≠ 0 ∧
    ((snap T0 s4b e4b).1.verticalGuide[0]? = some ((7:ℝ), e4b.lngLat.lat + 10) ∧
     (snap T0 s4b e4b).1.verticalGuide[1]? = some ((7:ℝ), e4b.lngLat.lat - 10)) ∧
    ((snap T0 s4b e4b).1.horizontalGuide[0]? = some (e4b.lngLat.lng + 10, (20:ℝ)) ∧
     (snap T0 s4b e4b).1.horizontalGuide[1]? = some (e4b.lngLat.lng - 10, (20:ℝ))) := by
  have hv : (getNearbyvertices s4b.vertices e4b.lngLat).1 = some 7 := by
    simp only [getNearbyvertices, s4b, e4b, List.map_cons, List.map_nil]
    rw [List.find?_cons_of_pos]
    simp only [decide_eq_true_eq]
    norm_num [abs_lt]
  have hh : (getNearbyvertices s4b.vertices e4b.lngLat).2 = some 20 := by
    simp only [getNearbyvertices, s4b, e4b, List.map_cons, List.map_nil]
    rw [List.find?_cons_of_pos]
    simp only [decide_eq_true_eq]
    norm_num [abs_lt]
  have hnothrow : snapFeatureStage T0 s4b e4b.lngLat.lng e4b.lngLat.lat ≠
      FeatureStage.thrown := fun hcontra =>
    FeatureStage.noConfusion (show FeatureStage.disabled = FeatureStage.thrown from hcontra)
  have h := c4_guide_resolver s4b.vertices e4b.lngLat
  exact ⟨h.1, rfl, List.cons_ne_nil _ _, rfl, hv, by norm_num, hh, by norm_num,
    h.2.2.2.2.1 T0 s4b e4b 7 rfl (List.cons_ne_nil _ _) rfl rfl rfl hnothrow hv (by norm_num),
    h.2.2.2.2.2 T0 s4b e4b 20 rfl (List.cons_ne_nil _ _) rfl rfl rfl hnothrow hh (by norm_num)⟩


/-- C10: when the first matching guide value on an axis is the number 0,
snap behaves as if no guide matched on that axis: the visibility flag is
cleared, the guide endpoints are untouched, and on that axis the component
of the returned coordinate is the raw one unless the feature snap won. -/
theorem c10_zero_guide_value (T : Turf) (s : SnapState) (e : Event)
    (halt : e.altKey = false) (hne : s.snapList ≠ [])
    (hguides : s.options.guides = true) :
    ((getNearbyvertices s.vertices e.lngLat).1 = some 0 →
      ∀ st c, snap T s e = (st, some c) →
        st.showVerticalSnapLine = false ∧
        st.verticalGuide = s.verticalGuide ∧
        (c.lng = e.lngLat.lng ∨
          ∃ cl sl md,
            snapFeatureStage T s e.lngLat.lng e.lngLat.lat = FeatureStage.ready cl sl md ∧
            cl.distance * 1000 < md ∧ c = sl)) ∧
    ((getNearbyvertices s.vertices e.lngLat).2 = some 0 →
      ∀ st c, snap T s e = (st, some c) →
        st.showHorizontalSnapLine = false ∧
        st.horizontalGuide = s.horizontalGuide ∧
        (c.lat = e.lngLat.lat ∨
          ∃ cl sl md,
            snapFeatureStage T s e.lngLat.lng e.lngLat.lat = FeatureStage.ready cl sl md ∧
            cl.distance * 1000 < md ∧ c = sl)) := by
  have hlen' : ¬ s.snapList.length ≤ 0 := fun hl =>
    hne (List.length_eq_zero.mp (Nat.le_zero.mp hl))
  constructor
  · intro hv st c hsnap
    rw [snap_eq_branch T s e halt hlen'] at hsnap
    obtain ⟨hflag, hpx, hzero, hupd⟩ := snapGuideStage_vertical s e 0 hguides hv
    have hflag' : (snapGuideStage s e).1.showVerticalSnapLine = false := by
      rw [hflag]; simp [jsTruthyR]
    have hguide := hzero rfl
    cases hst : snapFeatureStage T s e.lngLat.lng e.lngLat.lat with
    | thrown =>
      rw [hst] at hsnap
      exact absurd (congrArg Prod.snd hsnap) (by simp)
    | earlyReturn =>
      exact absurd hst (snapFeatureStage_ne_earlyReturn T s _ _ hne)
    | disabled =>
      rw [hst] at hsnap
      dsimp only at hsnap
      have hst' : st = (snapGuideStage s e).1 := (congrArg Prod.fst hsnap).symm
      have hc : c = snapFinal none e.lngLat.lng e.lngLat.lat
          (snapGuideStage s e).2.1 (snapGuideStage s e).2.2 := by
        have := congrArg Prod.snd hsnap
        simpa using this.symm
      subst hst'
      refine ⟨hflag', hguide, Or.inl ?_⟩
      rw [hc]
      unfold snapFinal snapGuideFallback
      rw [hpx]
      dsimp only
      rcases (snapGuideStage s e).2.2 with _ | hz <;> (simp [jsTruthyR]; try (split_ifs <;> rfl))
    | ready cl sl md =>
      rw [hst] at hsnap
      dsimp only at hsnap
      have hst' : st = (snapGuideStage s e).1 := (congrArg Prod.fst hsnap).symm
      have hc : c = snapFinal (some (cl, sl, md)) e.lngLat.lng e.lngLat.lat
          (snapGuideStage s e).2.1 (snapGuideStage s e).2.2 := by
        have := congrArg Prod.snd hsnap
        simpa using this.symm
      subst hst'
      refine ⟨hflag', hguide, ?_⟩
      by_cases hwin : cl.distance * 1000 < md
      · refine Or.inr ⟨cl, sl, md, rfl, hwin, ?_⟩
        rw [hc]
        simp [snapFinal, hwin]
      · refine Or.inl ?_
        rw [hc]
        unfold snapFinal snapGuideFallback
        rw [hpx]
        dsimp only
        rw [if_neg hwin]
        rcases (snapGuideStage s e).2.2 with _ | hz <;> (simp [jsTruthyR]; try (split_ifs <;> rfl))
  · intro hh st c hsnap
    rw [snap_eq_branch T s e halt hlen'] at hsnap
    obtain ⟨hflag, hpx, hzero, hupd⟩ := snapGuideStage_horizontal s e 0 hguides hh
    have hflag' : (snapGuideStage s e).1.showHorizontalSnapLine = false := by
      rw [hflag]; simp [jsTruthyR]
    have hguide := hzero rfl
    cases hst : snapFeatureStage T s e.lngLat.lng e.lngLat.lat with
    | thrown =>
      rw [hst] at hsnap
      exact absurd (congrArg Prod.snd hsnap) (by simp)
    | earlyReturn =>
      exact absurd hst (snapFeatureStage_ne_earlyReturn T s _ _ hne)
    | disabled =>
      rw [hst] at hsnap
      dsimp only at hsnap
      have hst' : st = (snapGuideStage s e).1 := (congrArg Prod.fst hsnap).symm
      have hc : c = snapFinal none e.lngLat.lng e.lngLat.lat
          (snapGuideStage s e).2.1 (snapGuideStage s e).2.2 := by
        have := congrArg Prod.snd hsnap
        simpa using this.symm
      subst hst'
      refine ⟨hflag', hguide, Or.inl ?_⟩
      rw [hc]
      unfold snapFinal snapGuideFallback
      rw [hpx]
      dsimp only
      rcases (snapGuideStage s e).2.1 with _ | v <;> (simp [jsTruthyR]; try (split_ifs <;> rfl))
    | ready cl sl md =>
      rw [hst] at hsnap
      dsimp only at hsnap
      have hst' : st = (snapGuideStage s e).1 := (congrArg Prod.fst hsnap).symm
      have hc : c = snapFinal (some (cl, sl, md)) e.lngLat.lng e.lngLat.lat
          (snapGuideStage s e).2.1 (snapGuideStage s e).2.2 := by
        have := congrArg Prod.snd hsnap
        simpa using this.symm
      subst hst'
      refine ⟨hflag', hguide, ?_⟩
      by_cases hwin : cl.distance * 1000 < md
      · refine Or.inr ⟨cl, sl, md, rfl, hwin, ?_⟩
        rw [hc]
        simp [snapFinal, hwin]
      · refine Or.inl ?_
        rw [hc]
        unfold snapFinal snapGuideFallback
        rw [hpx]
        dsimp only
        rw [if_neg hwin]
        rcases (snapGuideStage s e).2.1 with _ | v <;> (simp [jsTruthyR]; try (split_ifs <;> rfl))


/-- Witness for c10_zero_guide_value at s4 and e4, whose vertical match is
the value 0. -/
theorem c10_zero_guide_value_witness :
    e4.altKey = false ∧ s4.snapList ≠ [] ∧ s4.options.guides = true ∧
    (getNearbyvertices s4.vertices e4.lngLat).1 = some 0 ∧
    ((snap T0 s4 e4).1.showVerticalSnapLine = false ∧
     (snap T0 s4 e4).1.verticalGuide = s4.verticalGuide ∧
     ((⟨e4.lngLat.lng, e4.lngLat.lat⟩ : LngLat).lng = e4.lngLat.lng ∨
       ∃ cl sl md,
         snapFeatureStage T0 s4 e4.lngLat.lng e4.lngLat.lat = FeatureStage.ready cl sl md ∧
         cl.distance * 1000 < md ∧ (⟨e4.lngLat.lng, e4.lngLat.lat⟩ : LngLat) = sl)) := by
  have hv : (getNearbyvertices s4.vertices e4.lngLat).1 = some 0 := by
    simp only [getNearbyvertices, s4, e4, List.map_cons, List.map_nil]
    rw [List.find?_cons_of_pos]
    simp only [decide_eq_true_eq]
    norm_num [abs_lt]
  have hh : (getNearbyvertices s4.vertices e4.lngLat).2 = none := by
    simp only [getNearbyvertices, s4, e4, List.map_cons, List.map_nil]
    rw [List.find?_cons_of_neg]
    · rfl
    · simp only [decide_eq_true_eq, not_lt]
      norm_num [abs_le]
  have hlen' : ¬ s4.snapList.length ≤ 0 := by simp [s4]
  have hsnap2 : (snap T0 s4 e4).2 = some ⟨e4.lngLat.lng, e4.lngLat.lat⟩ := by
    rw [snap_eq_branch T0 s4 e4 rfl hlen']
    rw [show snapFeatureStage T0 s4 e4.lngLat.lng e4.lngLat.lat = FeatureStage.disabled from rfl]
    dsimp only
    have h1 : (snapGuideStage s4 e4).2.1 = some 0 := by
      rw [snapGuideStage_snd s4 e4 rfl, hv]
    have h2 : (snapGuideStage s4 e4).2.2 = none := by
      rw [snapGuideStage_snd s4 e4 rfl]
      exact hh
    rw [h1, h2]
    simp [snapFinal, snapGuideFallback, jsTruthyR]
  have hpair : snap T0 s4 e4 = ((snap T0 s4 e4).1, some ⟨e4.lngLat.lng, e4.lngLat.lat⟩) := by
    rw [← hsnap2]
  exact ⟨rfl, List.cons_ne_nil _ _, rfl, hv,
    (c10_zero_guide_value T0 s4 e4 rfl (List.cons_ne_nil _ _) rfl).1 hv
      (snap T0 s4 e4).1 ⟨e4.lngLat.lng, e4.lngLat.lat⟩ hpair⟩

end
